import Mathlib

/-!
Shallow embedding of the AI Image Studio application: the Gemini service
wrapper (generateImage, editImage), the file-to-base64 utility, and the UI
controller state machine from App.tsx, together with theorems checking the
specification's claims against these definitions.
-/

namespace ImageStudio

/-- The two UI modes, `type Mode = 'generate' | 'edit'` in App.tsx. -/
inductive Mode where
  | generate
  | edit
  deriving DecidableEq, Repr

/-- The `originalImageForEdit` record `{ data: string; mimeType: string }`. -/
structure OriginalImage where
  data : String
  mimeType : String
  deriving DecidableEq, Repr

/-- The React state of the App component: one field per useState hook.
`aspectRatio` is kept as a string since the AspectRatio union is a set of
five ratio strings. -/
structure AppState where
  mode : Mode
  prompt : String
  editPrompt : String
  aspectRatio : String
  imageSrc : Option String
  originalImageForEdit : Option OriginalImage
  isLoading : Bool
  error : Option String
  deriving DecidableEq, Repr

/-- The initial values of the useState hooks in App.tsx. -/
def initialState : AppState :=
  { mode := Mode.generate
    prompt := ""
    editPrompt := ""
    aspectRatio := "1:1"
    imageSrc := none
    originalImageForEdit := none
    isLoading := false
    error := none }

/-- Error message set by handleGenerate when the prompt is empty. -/
def promptValidationMsg : String := "Please enter a prompt to generate an image."

/-- Error message set by handleEdit when the instruction is empty. -/
def editPromptValidationMsg : String := "Please enter an editing instruction."

/-- Error message set by handleEdit when no image is loaded. -/
def noImageLoadedMsg : String := "No image loaded for editing."

/-- Error message set by handleFileChange for a non-image file. -/
def nonImageFileMsg : String := "Please select an image file."

/-- Error message set by handleFileChange when fileToBase64 rejects. -/
def uploadFailedMsg : String := "Failed to load image."

/-- The generic message rethrown by generateImage's catch block. -/
def generateFailedMsg : String :=
  "Failed to generate image. Please check the prompt or try again later."

/-- The message thrown inside generateImage's try block when no usable image
is present; it is always replaced by `generateFailedMsg` by the catch. -/
def noImageGeneratedMsg : String :=
  "No image was generated. The response might have been blocked."

/-- The generic message rethrown by editImage's catch block. -/
def editFailedMsg : String :=
  "Failed to edit image. Please check your instructions or try again later."

/-- The message thrown inside editImage's try block when no part carries
inline data; it is always replaced by `editFailedMsg` by the catch. -/
def noEditedImageMsg : String :=
  "No edited image was returned. The response might have been blocked."

/-- The message thrown (as a TypeError) when `response.candidates[0]` is
absent; its text is never surfaced since the catch replaces it. -/
def candidatesTypeErrorMsg : String := "TypeError"

/-- `image` object inside a generated image: `imageBytes` may be absent. -/
structure GeneratedImageData where
  imageBytes : Option String
  deriving DecidableEq, Repr

/-- One element of `response.generatedImages`. -/
structure GeneratedImage where
  image : GeneratedImageData
  deriving DecidableEq, Repr

/-- Response shape of `ai.models.generateImages`: `generatedImages` may be
absent (the code guards with `response.generatedImages && ...`). -/
structure GenerateImagesResponse where
  generatedImages : Option (List GeneratedImage)
  deriving DecidableEq, Repr

/-- Outcome of an awaited remote call as seen inside a try block: either a
response object or a thrown transport/API error. -/
inductive ApiCall (α : Type) where
  | ok (response : α)
  | throw (message : String)
  deriving DecidableEq, Repr

/-- Body of generateImage's try block: take the first element of
`generatedImages`, return its `image.imageBytes` when truthy (present and
non-empty), else throw `noImageGeneratedMsg`. -/
def generateImageAttempt (r : GenerateImagesResponse) : Except String String :=
  match r.generatedImages with
  | some imgs =>
    match imgs.head? with
    | some firstImg =>
      match firstImg.image.imageBytes with
      | some b => if b = "" then Except.error noImageGeneratedMsg else Except.ok b
      | none => Except.error noImageGeneratedMsg
    | none => Except.error noImageGeneratedMsg
  | none => Except.error noImageGeneratedMsg

/-- generateImage from services/geminiService: the catch block collapses
every failure (transport error or missing image) to `generateFailedMsg`. -/
def generateImage (call : ApiCall GenerateImagesResponse) : Except String String :=
  match call with
  | ApiCall.throw _ => Except.error generateFailedMsg
  | ApiCall.ok r =>
    match generateImageAttempt r with
    | Except.ok b => Except.ok b
    | Except.error _ => Except.error generateFailedMsg

/-- `inlineData` of a content part. -/
structure InlineData where
  data : String
  mimeType : String
  deriving DecidableEq, Repr

/-- One element of `candidates[0].content.parts`; `inlineData` may be
absent (the code guards with `if (part.inlineData)`). -/
structure ContentPart where
  inlineData : Option InlineData
  text : Option String
  deriving DecidableEq, Repr

/-- `content` of a candidate. -/
structure Content where
  parts : List ContentPart
  deriving DecidableEq, Repr

/-- One element of `response.candidates`. -/
structure Candidate where
  content : Content
  deriving DecidableEq, Repr

/-- Response shape of `ai.models.generateContent`: `candidates` may be
absent; the code indexes it without a guard, so absence throws. -/
structure GenerateContentResponse where
  candidates : Option (List Candidate)
  deriving DecidableEq, Repr

/-- The `for (const part of ...) if (part.inlineData) return part.inlineData.data`
loop of editImage: data of the first part whose inlineData is present. -/
def firstInlineData : List ContentPart → Option String
  | [] => none
  | p :: ps =>
    match p.inlineData with
    | some d => some d.data
    | none => firstInlineData ps

/-- Body of editImage's try block: iterate over `candidates[0].content.parts`;
indexing an absent or empty `candidates` throws a TypeError; an exhausted
loop throws `noEditedImageMsg`. -/
def editImageAttempt (r : GenerateContentResponse) : Except String String :=
  match r.candidates with
  | some (c :: _) =>
    match firstInlineData c.content.parts with
    | some d => Except.ok d
    | none => Except.error noEditedImageMsg
  | some [] => Except.error candidatesTypeErrorMsg
  | none => Except.error candidatesTypeErrorMsg

/-- editImage from services/geminiService: the catch block collapses every
failure (transport error, missing candidates, or no inline part) to
`editFailedMsg`. -/
def editImage (call : ApiCall GenerateContentResponse) : Except String String :=
  match call with
  | ApiCall.throw _ => Except.error editFailedMsg
  | ApiCall.ok r =>
    match editImageAttempt r with
    | Except.ok d => Except.ok d
    | Except.error _ => Except.error editFailedMsg

/-- Character-list core of JavaScript's String.startsWith. -/
def charsStartWith : List Char → List Char → Bool
  | _, [] => true
  | [], _ :: _ => false
  | c :: cs, d :: ds => c == d && charsStartWith cs ds

/-- JavaScript's `s.startsWith(p)`, modelled over the strings' characters. -/
def strStartsWith (s p : String) : Bool := charsStartWith s.data p.data

/-- Character-list core of JavaScript's `split(',')`: every comma separates
two fields, and the empty string yields one empty field. -/
def splitCommaChars : List Char → List (List Char)
  | [] => [[]]
  | c :: cs =>
    if c = ',' then [] :: splitCommaChars cs
    else
      match splitCommaChars cs with
      | [] => [[c]]
      | f :: rest => (c :: f) :: rest

/-- JavaScript's `s.split(',')`, modelled over the string's characters. -/
def jsSplitComma (s : String) : List String :=
  (splitCommaChars s.data).map String.mk

/-- A user-selected file: its browser-reported `type` and the data URL the
FileReader would produce (`none` models the reader's error event). -/
structure File where
  type : String
  readResult : Option String
  deriving DecidableEq, Repr

/-- The two reasons fileToBase64 can reject: the reader errored, or the
split of the data URL yielded no truthy base64 segment. -/
inductive FileReadError where
  | readError
  | noBase64
  deriving DecidableEq, Repr

/-- fileToBase64 from utils/fileUtils: reads the file as a data URL, takes
`result.split(',')[1]`, resolves `{ base64, mimeType: file.type }` when that
segment is truthy, rejects otherwise. -/
def fileToBase64 (file : File) : Except FileReadError (String × String) :=
  match file.readResult with
  | none => Except.error FileReadError.readError
  | some result =>
    match (jsSplitComma result).get? 1 with
    | some b64 =>
      if b64 = "" then Except.error FileReadError.noBase64
      else Except.ok (b64, file.type)
    | none => Except.error FileReadError.noBase64

/-- The synchronous part of handleGenerate up to the awaited call: the
empty-prompt validation, or else clear error, set loading, clear the image
and the edit source. -/
def generateStart (s : AppState) : AppState :=
  if s.prompt = "" then { s with error := some promptValidationMsg }
  else { s with error := none, isLoading := true, imageSrc := none,
                originalImageForEdit := none }

/-- The continuation of handleGenerate after generateImage settles: store
the JPEG data URL and the new edit source, or store the error message; the
finally block clears loading either way. -/
def generateResolve (s : AppState) (result : Except String String) : AppState :=
  match result with
  | Except.ok b =>
    { s with imageSrc := some ("data:image/jpeg;base64," ++ b)
             originalImageForEdit := some { data := b, mimeType := "image/jpeg" }
             isLoading := false }
  | Except.error msg => { s with error := some msg, isLoading := false }

/-- handleGenerate as a whole transition, parameterised by the outcome the
service call would produce; the boolean records whether a call was issued. -/
def handleGenerate (s : AppState) (result : Except String String) : AppState × Bool :=
  if s.prompt = "" then (generateStart s, false)
  else (generateResolve (generateStart s) result, true)

/-- The synchronous part of handleEdit up to the awaited call: the
validations, or else clear error and set loading. -/
def editStart (s : AppState) : AppState :=
  if s.editPrompt = "" then { s with error := some editPromptValidationMsg }
  else
    match s.originalImageForEdit with
    | none => { s with error := some noImageLoadedMsg }
    | some _ => { s with error := none, isLoading := true }

/-- The continuation of handleEdit after editImage settles: store the PNG
data URL and update the edit source for chained edits, or store the error
message; the finally block clears loading either way. -/
def editResolve (s : AppState) (result : Except String String) : AppState :=
  match result with
  | Except.ok b =>
    { s with imageSrc := some ("data:image/png;base64," ++ b)
             originalImageForEdit := some { data := b, mimeType := "image/png" }
             isLoading := false }
  | Except.error msg => { s with error := some msg, isLoading := false }

/-- handleEdit as a whole transition, parameterised by the outcome the
service call would produce; the boolean records whether a call was issued. -/
def handleEdit (s : AppState) (result : Except String String) : AppState × Bool :=
  if s.editPrompt = "" then (editStart s, false)
  else
    match s.originalImageForEdit with
    | none => (editStart s, false)
    | some _ => (editResolve (editStart s) result, true)

/-- The arguments handleEdit passes to editImage from a given state:
`editImage(editPrompt, originalImageForEdit.data, originalImageForEdit.mimeType)`,
available only when an edit source is loaded. -/
def editCallArgs (s : AppState) : Option (String × String × String) :=
  match s.originalImageForEdit with
  | some img => some (s.editPrompt, img.data, img.mimeType)
  | none => none

/-- The synchronous part of handleFileChange up to the awaited conversion:
nothing without a file; the non-image validation; or else clear error and
set loading. -/
def fileChangeStart (s : AppState) (file : Option File) : AppState :=
  match file with
  | none => s
  | some f =>
    if strStartsWith f.type "image/" then { s with error := none, isLoading := true }
    else { s with error := some nonImageFileMsg }

/-- The continuation of handleFileChange after fileToBase64 settles: store
the data URL built from the file's mime type, set the edit source, force
edit mode; or store the generic upload error; the finally block clears
loading either way. -/
def uploadResolve (s : AppState) (result : Except FileReadError (String × String)) :
    AppState :=
  match result with
  | Except.ok (b64, mt) =>
    { s with imageSrc := some ("data:" ++ mt ++ ";base64," ++ b64)
             originalImageForEdit := some { data := b64, mimeType := mt }
             mode := Mode.edit
             isLoading := false }
  | Except.error _ => { s with error := some uploadFailedMsg, isLoading := false }

/-- handleFileChange as a whole transition for a selected file; the boolean
records whether the file conversion was issued. -/
def handleFileChange (s : AppState) (file : Option File) : AppState × Bool :=
  match file with
  | none => (s, false)
  | some f =>
    if strStartsWith f.type "image/" then
      (uploadResolve (fileChangeStart s (some f)) (fileToBase64 f), true)
    else (fileChangeStart s (some f), false)

/-- handleModeChange: set the mode and clear any error. -/
def handleModeChange (s : AppState) (m : Mode) : AppState :=
  { s with mode := m, error := none }

/-- switchToEditMode: switch to edit mode only when an image is displayed. -/
def switchToEditMode (s : AppState) : AppState :=
  match s.imageSrc with
  | some _ => { s with mode := Mode.edit }
  | none => s

/-- clearError: the dismiss button's handler. -/
def clearErrorState (s : AppState) : AppState := { s with error := none }

/-- Whether a click can issue a generate call: the button is rendered only
in generate mode, carries `disabled={isLoading}`, and the handler reaches
the call only with a non-empty prompt. -/
def canIssueGenerate (s : AppState) : Bool :=
  decide (s.mode = Mode.generate) && !s.isLoading && decide (s.prompt ≠ "")

/-- Whether a click can issue an edit call: the button is rendered only in
edit mode with an edit source, carries
`disabled={isLoading || !originalImageForEdit}`, and the handler reaches the
call only with a non-empty instruction and an edit source. -/
def canIssueEdit (s : AppState) : Bool :=
  decide (s.mode = Mode.edit) && s.originalImageForEdit.isSome
    && !(s.isLoading || !s.originalImageForEdit.isSome)
    && decide (s.editPrompt ≠ "")

/-- Whether selecting file `f` can issue the upload conversion: the upload
control is rendered only in edit mode, is never disabled, and the handler
reaches the conversion for every image-typed file. -/
def canIssueUpload (s : AppState) (f : File) : Bool :=
  decide (s.mode = Mode.edit) && strStartsWith f.type "image/"

/-- The states the UI can reach from the initial render: one constructor per
user-triggerable control (with the rendering/disabled conditions of the JSX
as guards) and one per settlement of an outstanding asynchronous call. -/
inductive Reachable : AppState → Prop where
  | init : Reachable initialState
  | promptInput (s : AppState) (p : String) : Reachable s → s.mode = Mode.generate →
      Reachable { s with prompt := p }
  | editPromptInput (s : AppState) (p : String) : Reachable s → s.mode = Mode.edit →
      s.originalImageForEdit.isSome → Reachable { s with editPrompt := p }
  | aspectInput (s : AppState) (a : String) : Reachable s → s.mode = Mode.generate →
      Reachable { s with aspectRatio := a }
  | tabClick (s : AppState) (m : Mode) : Reachable s → Reachable (handleModeChange s m)
  | dismissClick (s : AppState) : Reachable s → s.error.isSome →
      Reachable (clearErrorState s)
  | editThisImageClick (s : AppState) : Reachable s → s.imageSrc.isSome →
      s.isLoading = false → Reachable (switchToEditMode s)
  | generateClick (s : AppState) : Reachable s → s.mode = Mode.generate →
      s.isLoading = false → Reachable (generateStart s)
  | generateSettle (s : AppState) (r : Except String String) : Reachable s →
      s.isLoading = true → Reachable (generateResolve s r)
  | editClick (s : AppState) : Reachable s → s.mode = Mode.edit →
      s.isLoading = false → s.originalImageForEdit.isSome →
      Reachable (editStart s)
  | editSettle (s : AppState) (r : Except String String) : Reachable s →
      s.isLoading = true → Reachable (editResolve s r)
  | fileInputChange (s : AppState) (f : Option File) : Reachable s →
      s.mode = Mode.edit → Reachable (fileChangeStart s f)
  | uploadSettle (s : AppState) (r : Except FileReadError (String × String)) :
      Reachable s → s.isLoading = true → Reachable (uploadResolve s r)

/-- Spec-side description of editImage's success value: the inline data of
the first content part of the first candidate that carries inline data. -/
def specFirstInlineData (r : GenerateContentResponse) : Option String :=
  match r.candidates with
  | some (c :: _) =>
    ((c.content.parts.find? fun p => p.inlineData.isSome).bind
        ContentPart.inlineData).map InlineData.data
  | _ => none

/-- Character-list core of the claim's reading of the payload: everything
after the first comma. -/
def afterFirstCommaChars : List Char → Option (List Char)
  | [] => none
  | c :: cs => if c = ',' then some cs else afterFirstCommaChars cs

/-- The claim's description of the payload: the substring of the read result
after the first comma, absent when the result holds no comma. -/
def substringAfterFirstComma (s : String) : Option String :=
  (afterFirstCommaChars s.data).map String.mk

/-- The payload the code actually extracts: `result.split(',')[1]`, the
second comma-separated field of the read result. -/
def secondCommaField (s : String) : Option String := (jsSplitComma s).get? 1

/-- A state reached by typing a prompt from the initial render. -/
def c1PromptState : AppState := { initialState with prompt := "a red circle" }

/-- The state during the outstanding generate call started from
`c1PromptState`. -/
def c1LoadingState : AppState := generateStart c1PromptState

/-- The state after clicking the edit tab while the generate call is still
outstanding. -/
def c1BadState : AppState := handleModeChange c1LoadingState Mode.edit

/-- An image file available for selection. -/
def c1File : File :=
  { type := "image/png", readResult := some "data:image/png;base64,AAAA" }

/-- A file whose read result carries a second comma after the payload. -/
def c9File : File :=
  { type := "image/png", readResult := some "data:image/png;base64,AA,BB" }

/-- A file whose read result is an ordinary one-comma data URL. -/
def c9GoodFile : File :=
  { type := "image/jpeg", readResult := some "data:image/jpeg;base64,QUJD" }

/-- A state with a prompt, an instruction and an edit source loaded. -/
def c2State : AppState :=
  { initialState with
      prompt := "a red circle"
      editPrompt := "add a hat"
      originalImageForEdit := some { data := "IMG", mimeType := "image/png" } }

/-- An image file whose underlying read errors. -/
def c2File : File := { type := "image/png", readResult := none }

/-- An image file whose read yields an ordinary data URL. -/
def c2GoodFile : File :=
  { type := "image/gif", readResult := some "data:image/gif;base64,R0lG" }

/-- A generate response carrying one image with bytes. -/
def c3Call : ApiCall GenerateImagesResponse :=
  ApiCall.ok { generatedImages := some [{ image := { imageBytes := some "BYTES" } }] }

/-- A state with an instruction and an edit source loaded. -/
def c4State : AppState :=
  { initialState with
      editPrompt := "add a hat"
      originalImageForEdit := some { data := "IMG", mimeType := "image/jpeg" } }

/-- An edit response whose first candidate holds a text part followed by an
inline-data part. -/
def c4Call : ApiCall GenerateContentResponse :=
  ApiCall.ok
    { candidates := some
        [{ content :=
            { parts :=
                [{ inlineData := none, text := some "here you go" },
                 { inlineData := some { data := "EDITED", mimeType := "image/png" },
                   text := none }] } }] }

/-- C5: for every state in which the prompt is empty, invoking Generate sets
the validation error message and issues no call, leaving every other field
(mode, images, prompts, isLoading) unchanged. -/
theorem C5_empty_prompt_validation (s : AppState) (r : Except String String)
    (hp : s.prompt = "") :
    handleGenerate s r = ({ s with error := some promptValidationMsg }, false) := by
  simp [handleGenerate, generateStart, hp]

/-- Witness for C5 at the initial state (whose prompt is empty). -/
theorem C5_empty_prompt_validation_witness :
    handleGenerate initialState (Except.ok "BYTES")
      = ({ initialState with error := some promptValidationMsg }, false) :=
  C5_empty_prompt_validation initialState (Except.ok "BYTES") rfl

/-- C6: for every state in which the edit instruction is empty, or in which
no edit source is loaded, invoking Edit sets the corresponding validation
message and issues no call, leaving every other field unchanged. -/
theorem C6_edit_validation (s : AppState) (r : Except String String) :
    (s.editPrompt = "" →
      handleEdit s r = ({ s with error := some editPromptValidationMsg }, false)) ∧
    (s.editPrompt ≠ "" → s.originalImageForEdit = none →
      handleEdit s r = ({ s with error := some noImageLoadedMsg }, false)) := by
  constructor
  · intro hp
    simp [handleEdit, editStart, hp]
  · intro hp hi
    simp [handleEdit, editStart, hp, hi]

/-- Witness for C6: both validation branches at concrete states. -/
theorem C6_edit_validation_witness :
    handleEdit initialState (Except.ok "BYTES")
        = ({ initialState with error := some editPromptValidationMsg }, false) ∧
    handleEdit { initialState with editPrompt := "add a hat" } (Except.ok "BYTES")
        = ({ initialState with
              editPrompt := "add a hat"
              error := some noImageLoadedMsg }, false) :=
  ⟨(C6_edit_validation initialState (Except.ok "BYTES")).1 rfl,
   (C6_edit_validation { initialState with editPrompt := "add a hat" }
      (Except.ok "BYTES")).2 (by decide) rfl⟩

/-- C8: for every selected file whose type does not start with `image/`,
the Upload action sets the non-image error and aborts, leaving mode, the
current image, the edit source and isLoading unchanged. -/
theorem C8_non_image_upload (s : AppState) (f : File)
    (hf : strStartsWith f.type "image/" = false) :
    handleFileChange s (some f) = ({ s with error := some nonImageFileMsg }, false) := by
  simp [handleFileChange, fileChangeStart, hf]

/-- Witness for C8 with a text file. -/
theorem C8_non_image_upload_witness :
    handleFileChange initialState (some { type := "text/plain", readResult := some "x" })
      = ({ initialState with error := some nonImageFileMsg }, false) :=
  C8_non_image_upload initialState { type := "text/plain", readResult := some "x" }
    (by decide)

/-- C10: generateImage examines only the first element of the response's
generated-images list: whenever that list is non-empty but the first image's
bytes are absent or empty, the result is the GenerationFailed error, no
matter what the remaining images carry. -/
theorem C10_only_first_image (firstImg : GeneratedImage) (rest : List GeneratedImage)
    (r : GenerateImagesResponse)
    (hr : r.generatedImages = some (firstImg :: rest))
    (hb : firstImg.image.imageBytes = none ∨ firstImg.image.imageBytes = some "") :
    generateImage (ApiCall.ok r) = Except.error generateFailedMsg := by
  cases hb with
  | inl h => simp [generateImage, generateImageAttempt, hr, h]
  | inr h => simp [generateImage, generateImageAttempt, hr, h]

/-- Witness for C10: the first image carries no bytes while the second
carries bytes, and the call still fails. -/
theorem C10_only_first_image_witness :
    generateImage (ApiCall.ok
        { generatedImages := some [{ image := { imageBytes := none } },
                                   { image := { imageBytes := some "GOODBYTES" } }] })
      = Except.error generateFailedMsg :=
  C10_only_first_image { image := { imageBytes := none } }
    [{ image := { imageBytes := some "GOODBYTES" } }]
    { generatedImages := some [{ image := { imageBytes := none } },
                               { image := { imageBytes := some "GOODBYTES" } }] }
    rfl (Or.inl rfl)

/-- C2: a Generate, Edit or Upload operation that was issued either fully
succeeds (the current image is replaced) or fully fails leaving the prior
image unchanged, except that a failed Generate leaves the image and the edit
source cleared (they are cleared eagerly before the call); every failure
ends with isLoading false and the error slot populated. -/
theorem C2_operation_atomicity (s : AppState) (b msg : String) (f fs : File)
    (e : FileReadError) (b64 mt : String)
    (hg : s.prompt ≠ "") (he : s.editPrompt ≠ "") (hi : s.originalImageForEdit.isSome)
    (hf : strStartsWith f.type "image/" = true)
    (hfail : fileToBase64 f = Except.error e)
    (hfs : strStartsWith fs.type "image/" = true)
    (hok : fileToBase64 fs = Except.ok (b64, mt)) :
    (handleGenerate s (Except.ok b)).1.imageSrc
        = some ("data:image/jpeg;base64," ++ b) ∧
    (handleGenerate s (Except.error msg)).1
        = { s with imageSrc := none, originalImageForEdit := none,
                   error := some msg, isLoading := false } ∧
    (handleEdit s (Except.ok b)).1.imageSrc
        = some ("data:image/png;base64," ++ b) ∧
    (handleEdit s (Except.error msg)).1
        = { s with error := some msg, isLoading := false } ∧
    (handleFileChange s (some f)).1
        = { s with error := some uploadFailedMsg, isLoading := false } ∧
    (handleFileChange s (some fs)).1.imageSrc
        = some ("data:" ++ mt ++ ";base64," ++ b64) ∧
    (handleFileChange s (some fs)).1.originalImageForEdit
        = some { data := b64, mimeType := mt } := by
  obtain ⟨img, himg⟩ := Option.isSome_iff_exists.mp hi
  refine ⟨?_, ?_, ?_, ?_, ?_, ?_, ?_⟩
  · simp [handleGenerate, generateStart, generateResolve, hg]
  · simp [handleGenerate, generateStart, generateResolve, hg]
  · simp [handleEdit, editStart, editResolve, he, himg]
  · simp [handleEdit, editStart, editResolve, he, himg]
  · simp [handleFileChange, fileChangeStart, uploadResolve, hf, hfail]
  · simp [handleFileChange, fileChangeStart, uploadResolve, hfs, hok]
  · simp [handleFileChange, fileChangeStart, uploadResolve, hfs, hok]

/-- Witness for C2: a state with both prompts and an edit source, one image
file whose read errors and one whose read succeeds. -/
theorem C2_operation_atomicity_witness :
    (handleGenerate c2State (Except.ok "BB")).1.imageSrc
        = some ("data:image/jpeg;base64," ++ "BB") ∧
    (handleGenerate c2State (Except.error "mm")).1
        = { c2State with imageSrc := none, originalImageForEdit := none,
                         error := some "mm", isLoading := false } ∧
    (handleEdit c2State (Except.ok "BB")).1.imageSrc
        = some ("data:image/png;base64," ++ "BB") ∧
    (handleEdit c2State (Except.error "mm")).1
        = { c2State with error := some "mm", isLoading := false } ∧
    (handleFileChange c2State (some c2File)).1
        = { c2State with error := some uploadFailedMsg, isLoading := false } ∧
    (handleFileChange c2State (some c2GoodFile)).1.imageSrc
        = some ("data:" ++ "image/gif" ++ ";base64," ++ "R0lG") ∧
    (handleFileChange c2State (some c2GoodFile)).1.originalImageForEdit
        = some { data := "R0lG", mimeType := "image/gif" } :=
  C2_operation_atomicity c2State "BB" "mm" c2File c2GoodFile
    FileReadError.readError "R0lG" "image/gif"
    (by decide) (by decide) (by decide) (by decide) rfl (by decide) rfl

/-- C3: from any state with a non-empty prompt, a successful Generate makes
the bytes returned by generateImage both the displayed image (as a JPEG data
URL) and the edit source, with MIME fixed to image/jpeg. -/
theorem C3_generate_success (s : AppState) (call : ApiCall GenerateImagesResponse)
    (b : String) (hp : s.prompt ≠ "") (hok : generateImage call = Except.ok b) :
    (handleGenerate s (generateImage call)).1.imageSrc
        = some ("data:image/jpeg;base64," ++ b) ∧
    (handleGenerate s (generateImage call)).1.originalImageForEdit
        = some { data := b, mimeType := "image/jpeg" } := by
  rw [hok]
  constructor
  · simp [handleGenerate, generateStart, generateResolve, hp]
  · simp [handleGenerate, generateStart, generateResolve, hp]

/-- Witness for C3 with a one-image response. -/
theorem C3_generate_success_witness :
    (handleGenerate { initialState with prompt := "a red circle" }
        (generateImage c3Call)).1.imageSrc
      = some ("data:image/jpeg;base64," ++ "BYTES") ∧
    (handleGenerate { initialState with prompt := "a red circle" }
        (generateImage c3Call)).1.originalImageForEdit
      = some { data := "BYTES", mimeType := "image/jpeg" } :=
  C3_generate_success { initialState with prompt := "a red circle" } c3Call "BYTES"
    (by decide) rfl

/-- C4: from any state with a non-empty edit instruction and a loaded edit
source, a successful Edit makes the bytes returned by editImage both the
displayed image (as a PNG data URL) and the edit source, with MIME fixed to
image/png, so the arguments of the next edit call use those bytes. -/
theorem C4_edit_success (s : AppState) (call : ApiCall GenerateContentResponse)
    (b : String) (hp : s.editPrompt ≠ "") (hi : s.originalImageForEdit.isSome)
    (hok : editImage call = Except.ok b) :
    (handleEdit s (editImage call)).1.imageSrc
        = some ("data:image/png;base64," ++ b) ∧
    (handleEdit s (editImage call)).1.originalImageForEdit
        = some { data := b, mimeType := "image/png" } ∧
    editCallArgs (handleEdit s (editImage call)).1
        = some (s.editPrompt, b, "image/png") := by
  obtain ⟨img, himg⟩ := Option.isSome_iff_exists.mp hi
  rw [hok]
  refine ⟨?_, ?_, ?_⟩
  · simp [handleEdit, editStart, editResolve, hp, himg]
  · simp [handleEdit, editStart, editResolve, hp, himg]
  · simp [handleEdit, editStart, editResolve, editCallArgs, hp, himg]

/-- Witness for C4 with a one-candidate response whose second part carries
the inline image. -/
theorem C4_edit_success_witness :
    (handleEdit c4State (editImage c4Call)).1.imageSrc
        = some ("data:image/png;base64," ++ "EDITED") ∧
    (handleEdit c4State (editImage c4Call)).1.originalImageForEdit
        = some { data := "EDITED", mimeType := "image/png" } ∧
    editCallArgs (handleEdit c4State (editImage c4Call)).1
        = some (c4State.editPrompt, "EDITED", "image/png") :=
  C4_edit_success c4State c4Call "EDITED" (by decide) (by decide) rfl

/-- C1 counterexample: a reachable state with the generate call still
outstanding (isLoading true) from which selecting an image file issues the
upload operation — the upload control is not gated by the loading flag. -/
theorem C1_counterexample :
    Reachable c1BadState ∧ c1BadState.isLoading = true ∧
      canIssueUpload c1BadState c1File = true := by
  refine ⟨?_, by decide, by decide⟩
  exact Reachable.tabClick c1LoadingState Mode.edit
    (Reachable.generateClick c1PromptState
      (Reachable.promptInput initialState "a red circle" Reachable.init rfl) rfl rfl)

/-- C1 amended: in every reachable state with isLoading true, neither a
Generate nor an Edit operation can be issued (their buttons carry
`disabled={isLoading}`); the Upload control is not disabled while loading,
so it is not covered by the gate. -/
theorem C1_loading_gates_generate_and_edit (s : AppState) (_hr : Reachable s)
    (hl : s.isLoading = true) :
    canIssueGenerate s = false ∧ canIssueEdit s = false := by
  constructor
  · simp [canIssueGenerate, hl]
  · simp [canIssueEdit, hl]

/-- Witness for the amended C1 at the mid-generate loading state. -/
theorem C1_loading_gates_generate_and_edit_witness :
    canIssueGenerate c1LoadingState = false ∧ canIssueEdit c1LoadingState = false :=
  C1_loading_gates_generate_and_edit c1LoadingState
    (Reachable.generateClick c1PromptState
      (Reachable.promptInput initialState "a red circle" Reachable.init rfl) rfl rfl)
    (by decide)

/-- The scan loop of editImage returns exactly the inline data of the first
part whose inlineData is present. -/
theorem firstInlineData_eq_find (ps : List ContentPart) :
    firstInlineData ps
      = ((ps.find? fun p => p.inlineData.isSome).bind ContentPart.inlineData).map
          InlineData.data := by
  induction ps with
  | nil => rfl
  | cons p ps ih =>
    cases h : p.inlineData with
    | some d => simp [firstInlineData, List.find?_cons, h]
    | none => simp [firstInlineData, List.find?_cons, h, ih]

/-- C7: editImage returns the inline bytes of the first content part that
carries inline data; when no part carries inline data, and on any thrown
transport/API error, it produces the single generic EditFailed message. -/
theorem C7_editImage_contract (call : ApiCall GenerateContentResponse) :
    editImage call =
      match call with
      | ApiCall.throw _ => Except.error editFailedMsg
      | ApiCall.ok r =>
        match specFirstInlineData r with
        | some d => Except.ok d
        | none => Except.error editFailedMsg := by
  cases call with
  | throw m => rfl
  | ok r =>
    cases hr : r.candidates with
    | none => simp [editImage, editImageAttempt, specFirstInlineData, hr]
    | some cs =>
      cases cs with
      | nil => simp [editImage, editImageAttempt, specFirstInlineData, hr]
      | cons c rest =>
        simp only [editImage, editImageAttempt, specFirstInlineData, hr,
          firstInlineData_eq_find]
        cases ((c.content.parts.find? fun p => p.inlineData.isSome).bind
            ContentPart.inlineData).map InlineData.data with
        | none => rfl
        | some d => rfl

/-- C9 counterexample: on a read result with a second comma the code keeps
only the field between the first two commas ("AA"), not the substring after
the first comma ("AA,BB") that the claim describes. -/
theorem C9_counterexample :
    fileToBase64 c9File = Except.ok ("AA", "image/png") ∧
    substringAfterFirstComma "data:image/png;base64,AA,BB" = some "AA,BB" ∧
    ("AA" : String) ≠ "AA,BB" :=
  ⟨rfl, by decide, by decide⟩

/-- C9 amended: a successful fileToBase64 returns the file's own type field
as mimeType and the second comma-separated field of the read result as the
payload, and it rejects exactly when that field is absent or empty or the
read errors. -/
theorem C9_fileToBase64_contract (f : File) :
    (∀ b mt, fileToBase64 f = Except.ok (b, mt) →
        mt = f.type ∧ b ≠ "" ∧
        ∃ res, f.readResult = some res ∧ secondCommaField res = some b) ∧
    ((∃ e, fileToBase64 f = Except.error e) ↔
        (f.readResult = none ∨
          ∃ res, f.readResult = some res ∧
            (secondCommaField res = none ∨ secondCommaField res = some ""))) := by
  cases hres : f.readResult with
  | none =>
    constructor
    · intro b mt h
      simp [fileToBase64, hres] at h
    · simp [fileToBase64, hres]
  | some res =>
    have hfb : fileToBase64 f =
        (match secondCommaField res with
          | some b64 =>
            if b64 = "" then Except.error FileReadError.noBase64
            else Except.ok (b64, f.type)
          | none => Except.error FileReadError.noBase64) := by
      simp [fileToBase64, hres, secondCommaField]
    cases hb : secondCommaField res with
    | none =>
      constructor
      · intro b mt h
        rw [hfb, hb] at h
        simp at h
      · rw [hfb, hb]
        simp [hres, hb]
    | some b64 =>
      by_cases hempty : b64 = ""
      · constructor
        · intro b mt h
          rw [hfb, hb] at h
          simp [hempty] at h
        · rw [hfb, hb]
          simp [hempty, hres, hb]
      · constructor
        · intro b mt h
          rw [hfb, hb] at h
          simp [hempty] at h
          refine ⟨h.2.symm, ?_, res, rfl, ?_⟩
          · rw [← h.1]; exact hempty
          · rw [hb, h.1]
        · rw [hfb, hb]
          simp [hempty, hres, hb]

/-- Witness for the amended C9 on an ordinary data URL. -/
theorem C9_fileToBase64_contract_witness :
    "image/jpeg" = c9GoodFile.type ∧ ("QUJD" : String) ≠ "" ∧
      ∃ res, c9GoodFile.readResult = some res ∧ secondCommaField res = some "QUJD" :=
  (C9_fileToBase64_contract c9GoodFile).1 "QUJD" "image/jpeg" rfl

end ImageStudio
